import Mathlib

/-!
Shallow embedding of the browser-session workflow of OpenCowork:
`src/resources/skills/xiaohongshu-creator/scripts/publish.py` and
`src/resources/skills/xiaohongshu-search/scripts/search.py`.

Pure logic (string filtering, outcome mapping, polling loops) is translated
directly; the browser driver is modelled as an explicit environment record
that supplies the result of each driver call (cookie reads, selector waits,
element attributes, navigation success), and each workflow returns its
outcome together with the list of driver interactions it performed.
-/

namespace OpenCowork

/-! ## String primitives

Python `needle in hay` (substring containment), `hay.startswith(needle)` and
`text.strip()` as executable functions on `String`. -/

/-- Python `hay.startswith(needle)` on character lists. -/
def chListPre : List Char → List Char → Bool
  | [], _ => true
  | _ :: _, [] => false
  | a :: as, b :: bs => a == b && chListPre as bs

/-- Python `needle in hay` (substring containment) on character lists. -/
def chListSub (needle : List Char) : List Char → Bool
  | [] => needle.isEmpty
  | b :: bs => chListPre needle (b :: bs) || chListSub needle bs

/-- Python `hay.startswith(needle)`. -/
def hasPre (needle hay : String) : Bool :=
  chListPre needle.data hay.data

/-- Python `needle in hay`. -/
def hasSubstr (needle hay : String) : Bool :=
  chListSub needle.data hay.data

/-- Python `text.strip()`: drop leading and trailing whitespace. -/
def strTrim (s : String) : String :=
  String.mk (((s.data.dropWhile Char.isWhitespace).reverse.dropWhile
    Char.isWhitespace).reverse)

/-! ## Login state detectors

`publish.py::_is_logged_in` (lines 72-80) reads the cookie set for the site
origin — a driver call that can itself fail, modelled as `Except` — and
reports login iff the cookie names intersect four known session cookie names.
The cookie read is NOT guarded by any handler in the source, so its failure
propagates (`Except.error`).

`search.py::check_login` (lines 47-84) never reads cookies: it tries 12
selectors (each failed wait is swallowed by `except: continue`), then scans
the rendered HTML for 6 authenticated-only substrings; the whole body is
wrapped in a bare `except:` returning `False`. -/

/-- The four session-identifying cookie names of `_is_logged_in`. -/
def knownCookieNames : List String := ["a1", "web_session", "webId", "gid"]

/-- `names & {"a1", "web_session", "webId", "gid"}` is nonempty. -/
def isLoggedInNames (names : List String) : Bool :=
  names.any (fun n => knownCookieNames.contains n)

/-- `publish.py::_is_logged_in`: the unguarded cookie read may fail, in which
case the exception propagates to the caller. -/
def _is_logged_in (cookies : Except Unit (List String)) : Except Unit Bool :=
  match cookies with
  | Except.error e => Except.error e
  | Except.ok names => Except.ok (isLoggedInNames names)

/-- The observable state of a browser page for `check_login`: which selector
waits resolve (a failed wait raises and is swallowed, modelled as `false`),
and the result of `page.content()` (which may raise, caught by the outer
bare `except`). -/
structure Page where
  selectorResolves : String → Bool
  content : Except Unit String

/-- The 12 login-indicator selectors of `search.py::check_login`. -/
def loginSelectors : List String :=
  [".user.side-bar-component",
   "a[href*=\x27/user/profile\x27]",
   "[src*=\x27sns-avatar\x27]",
   "[class*=\x27user\x27]",
   ".avatar",
   "[class*=\x27avatar\x27]",
   "img[src*=\x27avatar\x27]",
   ".user-nickname",
   "text=创作中心",
   "text=业务合作",
   ".publish-btn",
   ".global-nav"]

/-- The 6 authenticated-only page-content substrings of `check_login`. -/
def loginIndicators : List String :=
  ["退出登录", "个人主页", "创作中心", "业务合作", "sns-avatar", "/user/profile/"]

/-- `search.py::check_login`: first resolvable selector wins; otherwise scan
the page HTML for an indicator substring; a failed content fetch falls into
the outer bare `except` and yields `false`. Cookies are never consulted. -/
def check_login (page : Page) : Bool :=
  if loginSelectors.any page.selectorResolves then true
  else
    match page.content with
    | Except.error _ => false
    | Except.ok html => loginIndicators.any (fun ind => hasSubstr ind html)

/-! ## Login wait loops

`publish.py::_wait_for_login` (lines 83-99): sleep 3 seconds, then poll the
detector, for at most 100 iterations (300 s / 3 s).  `search.py::
wait_for_login` (lines 87-103): poll the detector first, then sleep 2
seconds, while less than 300 s have elapsed.  Both loop structures are
translated from the source with the hard-coded interval and deadline
generalized to parameters (the source instances are `_wait_for_login` and
`wait_for_login` below); the detector is a function of the poll index
(first poll = 1).  Each loop returns
(number of polls performed, elapsed waiting seconds, success). -/

/-- Publish-side wait loop: sleep `interval`, poll, for `k` iterations. -/
def waitLoopPub (d : Nat → Bool) (interval : Nat) :
    Nat → Nat → Nat → Nat × Nat × Bool
  | 0, polls, t => (polls, t, false)
  | k + 1, polls, t =>
    if d (polls + 1) then (polls + 1, t + interval, true)
    else waitLoopPub d interval k (polls + 1) (t + interval)

/-- Search-side wait loop: while `t < maxWait`: poll, then sleep `interval`.
`fuel` bounds the recursion; `maxWait + 1` fuel is enough for `interval ≥ 1`. -/
def waitLoopSearch (d : Nat → Bool) (interval maxWait : Nat) :
    Nat → Nat → Nat → Nat × Nat × Bool
  | 0, polls, t => (polls, t, false)
  | fuel + 1, polls, t =>
    if t < maxWait then
      if d (polls + 1) then (polls + 1, t, true)
      else waitLoopSearch d interval maxWait fuel (polls + 1) (t + interval)
    else (polls, t, false)

/-- `_wait_for_login` loop with the source's iteration count recovered as
`maxWait / interval` (the source uses `range(100)` = 300 s / 3 s). -/
def waitForLoginPub (interval maxWait : Nat) (d : Nat → Bool) :
    Nat × Nat × Bool :=
  waitLoopPub d interval (maxWait / interval) 0 0

/-- `wait_for_login` loop with the source's `while time elapsed < 300`
deadline generalized. -/
def waitForLoginSearch (interval maxWait : Nat) (d : Nat → Bool) :
    Nat × Nat × Bool :=
  waitLoopSearch d interval maxWait (maxWait + 1) 0 0

/-- `publish.py::_wait_for_login`: 3-second interval, at most 100 polls.
On success the source returns the page handle, on timeout `None`; here the
final component is that success flag. -/
def _wait_for_login (d : Nat → Bool) : Nat × Nat × Bool :=
  waitForLoginPub 3 300 d

/-- `search.py::wait_for_login`: polls `check_login` on the evolving page
(`pageAt i` = page state at poll `i`) every 2 s for at most 300 s. -/
def wait_for_login (pageAt : Nat → Page) : Nat × Nat × Bool :=
  waitForLoginSearch 2 300 (fun i => check_login (pageAt i))

/-! ## Driver interaction events

Each workflow returns its outcome paired with the ordered list of driver
interactions it performed; releasing the browser context appears as an
explicit event so that scoped release (`finally`) is visible in the trace. -/

/-- One driver interaction of a workflow run. -/
inductive Ev where
  | newPage : Ev
  | gotoUrl : String → Ev
  | clickTab : Ev
  | fillTitle : String → Ev
  | typeContent : String → Ev
  | clickPublish : Ev
  | indicatorObserved : Ev
  | scrollPage : Ev
  | queryImages : Ev
  | queryTitles : Ev
  | closeContext : Ev
  | closeBrowser : Ev
  deriving DecidableEq

/-! ## Publish workflow (`publish.py::publish_content`, lines 107-211) -/

/-- The terminal status tags of `publish_content`. -/
inductive PublishStatus where
  | not_logged_in : PublishStatus
  | published : PublishStatus
  | ready_to_confirm : PublishStatus
  | ready : PublishStatus
  deriving DecidableEq

/-- The dict returned by `publish_content`: a status tag, plus the submitted
title for every status except `not_logged_in`. -/
structure PublishResult where
  status : PublishStatus
  title : Option String
  deriving DecidableEq

/-- Failures that escape `publish_content` to its caller (unguarded driver
calls): the cookie read inside `_is_logged_in`, and page navigation. -/
inductive PubErr where
  | cookieReadFailed : PubErr
  | navFailed : PubErr
  deriving DecidableEq

/-- Environment for one `publish_content` run: the result of every driver
call the source makes.  UI-ambiguity lookups (tab, title input, body input,
publish button, success indicator) are guarded by `try/except` in the source
and so appear as plain booleans; element interactions (click/fill/type) are
modelled as succeeding. -/
structure PubEnv where
  /-- `context.cookies(...)` in `_is_logged_in`; unguarded, may fail. -/
  cookies : Except Unit (List String)
  /-- `page.goto` of the site root inside `_wait_for_login` succeeds. -/
  gotoLoginOk : Bool
  /-- `_is_logged_in` result at poll `i` of `_wait_for_login`. -/
  waitDetect : Nat → Bool
  /-- `page.goto` of the creator publish page succeeds (unguarded). -/
  gotoPublishOk : Bool
  /-- the 上传图文 tab was located (guarded; miss is logged and skipped). -/
  tabFound : Bool
  /-- a title input selector resolved (guarded cascade). -/
  titleFound : Bool
  /-- a body input selector resolved (guarded cascade). -/
  contentFound : Bool
  /-- `wait_for_selector("button:has-text(发布)")` and the following
  `query_selector_all` completed without raising (guarded). -/
  pubBtnWaitOk : Bool
  /-- number of buttons returned by `query_selector_all`. -/
  pubBtnCount : Nat
  /-- the success indicator appeared within its 5 s timeout (guarded). -/
  indicatorSeen : Bool

/-- `publish_button = buttons[-1] if buttons else None`, reachable only when
the guarded lookup did not raise. -/
def submitFound (env : PubEnv) : Bool :=
  env.pubBtnWaitOk && decide (0 < env.pubBtnCount)

/-- Result of the submit/confirm phase (source lines 179-208). -/
def pubStepsResult (title : String) (env : PubEnv) :
    Except PubErr PublishResult :=
  if submitFound env then
    if env.indicatorSeen then
      Except.ok ⟨PublishStatus.published, some title⟩
    else
      Except.ok ⟨PublishStatus.ready_to_confirm, some title⟩
  else
    Except.ok ⟨PublishStatus.ready, some title⟩

/-- Driver interactions of the form-fill and submit phase (lines 129-208). -/
def pubStepsTrace (title content : String) (env : PubEnv) : List Ev :=
  (if env.tabFound then [Ev.clickTab] else [])
    ++ (if env.titleFound then [Ev.fillTitle title] else [])
    ++ (if env.contentFound then [Ev.typeContent content] else [])
    ++ (if submitFound env then
          [Ev.clickPublish]
            ++ (if env.indicatorSeen then [Ev.indicatorObserved] else [])
        else [])

/-- Navigation to the publish surface followed by the form/submit phase;
an unguarded `goto` failure propagates. -/
def navAndPublish (title content : String) (env : PubEnv) (pre : List Ev) :
    Except PubErr PublishResult × List Ev :=
  if env.gotoPublishOk then
    (pubStepsResult title env,
     pre ++ [Ev.gotoUrl "https://creator.xiaohongshu.com/publish/publish"]
       ++ pubStepsTrace title content env)
  else
    (Except.error PubErr.navFailed,
     pre ++ [Ev.gotoUrl "https://creator.xiaohongshu.com/publish/publish"])

/-- Body of `publish_content` (the part inside the `try`): login check,
optional login wait, then navigate and publish.  `images` and `tags` are
accepted exactly as in the source signature and, as in the source, never
read. -/
def publishBody (title content : String) (images tags : Option (List String))
    (env : PubEnv) : Except PubErr PublishResult × List Ev :=
  match _is_logged_in env.cookies with
  | Except.error _ => (Except.error PubErr.cookieReadFailed, [])
  | Except.ok true => navAndPublish title content env [Ev.newPage]
  | Except.ok false =>
    if env.gotoLoginOk then
      if (_wait_for_login env.waitDetect).2.2 then
        navAndPublish title content env
          [Ev.gotoUrl "https://www.xiaohongshu.com"]
      else
        (Except.ok ⟨PublishStatus.not_logged_in, none⟩,
         [Ev.gotoUrl "https://www.xiaohongshu.com"])
    else
      (Except.error PubErr.navFailed,
       [Ev.gotoUrl "https://www.xiaohongshu.com"])

/-- `publish.py::publish_content`: the body runs under
`try ... finally: await context.close()`, so the close event follows the
body's trace on every path, error or not. -/
def publish_content (title content : String)
    (images tags : Option (List String)) (env : PubEnv) :
    Except PubErr PublishResult × List Ev :=
  ((publishBody title content images tags env).1,
   (publishBody title content images tags env).2 ++ [Ev.closeContext])

/-- `main`: `args.images.split(",") if args.images else None` (an absent or
empty option stays `None`). -/
def splitArg : Option String → Option (List String)
  | none => none
  | some s => if s = "" then none else some (s.splitOn ",")

/-- The `publish` command of `publish.py::main`: parse `--images`/`--tags`
and call `publish_content`. -/
def mainPublishArgs (title content : String)
    (argImages argTags : Option String) (env : PubEnv) :
    Except PubErr PublishResult × List Ev :=
  publish_content title content (splitArg argImages) (splitArg argTags) env

/-! ## Search/harvest workflow (`search.py::crawl_xiaohongshu`, lines 106-217) -/

/-- The keyword-parameterized search results URL. -/
def searchUrl (keyword : String) : String :=
  "https://www.xiaohongshu.com/search_result?keyword=" ++ keyword ++ "&type=51"

/-- Failures that escape `crawl_xiaohongshu`: an unguarded `page.goto`, and
`raise Exception("未完成登录")` after a login-wait timeout (line 141). -/
inductive CrawlErr where
  | navFailed : CrawlErr
  | loginIncomplete : CrawlErr
  deriving DecidableEq

/-- Environment for one `crawl_xiaohongshu` run.  `pageAt i` is the page
state at login-detector poll `i` (`pageAt 0` = the initial `check_login`);
`imgElems` / `titleElems` list, in DOM encounter order, the `src` attribute
of each matched image element and the `inner_text` of each matched title
element (`none` = the attribute/text read raised and was swallowed). -/
structure SearchEnv where
  pageAt : Nat → Page
  navOk : Bool
  nav2Ok : Bool
  imgElems : List (Option String)
  titleElems : List (Option String)

/-- Image loop body (source lines 159-170): keep a `src` that is non-empty
and contains `"http"` or `"//"` as a substring (Python `in`); a kept source
that starts with `"//"` gets `"https:"` prepended. -/
def extractImagesGo : List (Option String) → List String
  | [] => []
  | none :: rest => extractImagesGo rest
  | some src :: rest =>
    if (src != "") && (hasSubstr "http" src || hasSubstr "//" src) then
      (if hasPre "//" src then "https:" ++ src else src)
        :: extractImagesGo rest
    else extractImagesGo rest

/-- `for i, img in enumerate(img_elements[:count])`: at most `count`
elements, in encounter order. -/
def extractImages (count : Nat) (elems : List (Option String)) : List String :=
  extractImagesGo (elems.take count)

/-- What the image loop keeps of one element, as a `filterMap` step (used to
state the loop's behaviour element-wise). -/
def srcNorm : Option String → Option String
  | none => none
  | some src =>
    if (src != "") && (hasSubstr "http" src || hasSubstr "//" src) then
      some (if hasPre "//" src then "https:" ++ src else src)
    else none

/-- Title loop body (source lines 177-183): skip a raised read and a raw
text equal to `""`; otherwise append `text.strip()` — note the emptiness
test is on the RAW text, before stripping. -/
def extractTitlesGo : List (Option String) → List String
  | [] => []
  | none :: rest => extractTitlesGo rest
  | some text :: rest =>
    if text != "" then strTrim text :: extractTitlesGo rest
    else extractTitlesGo rest

/-- `for title in title_elements[:count]`. -/
def extractTitles (count : Nat) (elems : List (Option String)) : List String :=
  extractTitlesGo (elems.take count)

/-- What the title loop keeps of one element, as a `filterMap` step. -/
def titleNorm : Option String → Option String
  | none => none
  | some text => if text != "" then some (strTrim text) else none

/-- Body of `crawl_xiaohongshu` (inside the `try`): navigate, check login,
possibly wait for login and re-navigate, scroll, then extract images and
titles.  File persistence (`save_dir`) is outside the claims and omitted. -/
def crawlBody (keyword : String) (count : Nat) (env : SearchEnv) :
    Except CrawlErr (List String × List String) × List Ev :=
  if env.navOk then
    if check_login (env.pageAt 0) then
      (Except.ok (extractImages count env.imgElems,
                  extractTitles count env.titleElems),
       [Ev.newPage, Ev.gotoUrl (searchUrl keyword), Ev.scrollPage,
        Ev.queryImages, Ev.queryTitles])
    else
      if (wait_for_login env.pageAt).2.2 then
        if env.nav2Ok then
          (Except.ok (extractImages count env.imgElems,
                      extractTitles count env.titleElems),
           [Ev.newPage, Ev.gotoUrl (searchUrl keyword),
            Ev.gotoUrl (searchUrl keyword), Ev.scrollPage,
            Ev.queryImages, Ev.queryTitles])
        else
          (Except.error CrawlErr.navFailed,
           [Ev.newPage, Ev.gotoUrl (searchUrl keyword),
            Ev.gotoUrl (searchUrl keyword)])
      else
        (Except.error CrawlErr.loginIncomplete,
         [Ev.newPage, Ev.gotoUrl (searchUrl keyword)])
  else
    (Except.error CrawlErr.navFailed,
     [Ev.newPage, Ev.gotoUrl (searchUrl keyword)])

/-- `search.py::crawl_xiaohongshu`: the body runs under
`try ... finally: await browser.close()`, so the close event follows the
body's trace on every path. -/
def crawl_xiaohongshu (keyword : String) (count : Nat) (env : SearchEnv) :
    Except CrawlErr (List String × List String) × List Ev :=
  ((crawlBody keyword count env).1,
   (crawlBody keyword count env).2 ++ [Ev.closeBrowser])

/-- The one structured result object `search.py::main` prints:
`{"keyword": ..., "images": results, "titles": titles,
"count": len(results)}`. -/
structure HarvestOutput where
  keyword : String
  images : List String
  titles : List String
  count : Nat
  deriving DecidableEq

/-- `search.py::main` (lines 230-243): run the crawl and print the one JSON
object.  `main` installs no handler, so an exception escaping
`crawl_xiaohongshu` crashes the process before anything is printed —
modelled as `none`. -/
def mainSearch (keyword : String) (count : Nat) (env : SearchEnv) :
    Option HarvestOutput :=
  match (crawl_xiaohongshu keyword count env).1 with
  | Except.error _ => none
  | Except.ok (results, titles) =>
    some { keyword := keyword, images := results, titles := titles,
           count := results.length }

/-! ## Concrete fixtures used by witnesses and counterexamples -/

/-- A page on which every login signal fires. -/
def loggedPage : Page := ⟨fun _ => true, Except.ok ""⟩

/-- A page with no resolving selector and blank HTML. -/
def noSignalPage : Page := ⟨fun _ => false, Except.ok ""⟩

/-- A page with no resolving selector whose content fetch fails. -/
def deadPage : Page := ⟨fun _ => false, Except.error ()⟩

/-- An environment whose initial page is logged in and that yields one image
and no titles. -/
def envHarvestOk : SearchEnv :=
  ⟨fun _ => loggedPage, true, true, [some "http://a.jpg"], []⟩

/-- An environment in which no login signal ever appears. -/
def envNoLogin : SearchEnv :=
  ⟨fun _ => noSignalPage, true, true, [], []⟩

/-- A detector that reports login from the 3rd poll onward. -/
def detFrom3 : Nat → Bool := fun i => decide (3 ≤ i)

/-- A publish environment: logged in, every element found, one publish
button, success indicator observed. -/
def envPubAll : PubEnv :=
  ⟨Except.ok ["a1"], true, fun _ => true, true, true, true, true, true, 1,
   true⟩

/-- Twenty image elements with usable sources in encounter order, the even
ones protocol-relative. -/
def sampleImgElems : List (Option String) :=
  [some "//img.example.com/p00.jpg", some "http://img.example.com/p01.jpg",
   some "//img.example.com/p02.jpg", some "http://img.example.com/p03.jpg",
   some "//img.example.com/p04.jpg", some "http://img.example.com/p05.jpg",
   some "//img.example.com/p06.jpg", some "http://img.example.com/p07.jpg",
   some "//img.example.com/p08.jpg", some "http://img.example.com/p09.jpg",
   some "//img.example.com/p10.jpg", some "http://img.example.com/p11.jpg",
   some "//img.example.com/p12.jpg", some "http://img.example.com/p13.jpg",
   some "//img.example.com/p14.jpg", some "http://img.example.com/p15.jpg",
   some "//img.example.com/p16.jpg", some "http://img.example.com/p17.jpg",
   some "//img.example.com/p18.jpg", some "http://img.example.com/p19.jpg"]

/-! ## Helper lemmas -/

/-- A never-true detector exhausts the publish-side loop: `k` polls,
`interval * k` extra elapsed seconds, no success. -/
theorem waitLoopPub_never (d : Nat → Bool) (interval : Nat)
    (hd : ∀ i, d i = false) :
    ∀ k polls t, waitLoopPub d interval k polls t =
      (polls + k, t + interval * k, false) := by
  intro k
  induction k with
  | zero => intro polls t; simp [waitLoopPub]
  | succ k ih =>
    intro polls t
    have e : waitLoopPub d interval (k + 1) polls t =
        if d (polls + 1) then (polls + 1, t + interval, true)
        else waitLoopPub d interval k (polls + 1) (t + interval) := rfl
    rw [e, hd, ih]
    simp [Nat.mul_succ]
    omega

/-- A never-true detector never makes the search-side loop succeed. -/
theorem waitLoopSearch_never (d : Nat → Bool) (interval maxWait : Nat)
    (hd : ∀ i, d i = false) :
    ∀ fuel polls t,
      (waitLoopSearch d interval maxWait fuel polls t).2.2 = false := by
  intro fuel
  induction fuel with
  | zero => intro polls t; rfl
  | succ fuel ih =>
    intro polls t
    have e : waitLoopSearch d interval maxWait (fuel + 1) polls t =
        if t < maxWait then
          if d (polls + 1) then (polls + 1, t, true)
          else waitLoopSearch d interval maxWait fuel (polls + 1)
            (t + interval)
        else (polls, t, false) := rfl
    rw [e]
    by_cases h : t < maxWait
    · simp [h, hd, ih]
    · simp [h]

/-- The image loop is element-wise: it is `filterMap srcNorm`. -/
theorem extractImagesGo_eq_filterMap (l : List (Option String)) :
    extractImagesGo l = l.filterMap srcNorm := by
  induction l with
  | nil => rfl
  | cons hd tl ih =>
    cases hd with
    | none => simpa [extractImagesGo, srcNorm] using ih
    | some src =>
      by_cases hc :
          ((src != "") && (hasSubstr "http" src || hasSubstr "//" src)) = true
      · simp [extractImagesGo, srcNorm, hc, ih]
      · simp [extractImagesGo, srcNorm, hc, ih]

/-- The title loop is element-wise: it is `filterMap titleNorm`. -/
theorem extractTitlesGo_eq_filterMap (l : List (Option String)) :
    extractTitlesGo l = l.filterMap titleNorm := by
  induction l with
  | nil => rfl
  | cons hd tl ih =>
    cases hd with
    | none => simpa [extractTitlesGo, titleNorm] using ih
    | some text =>
      by_cases hc : (text != "") = true
      · simp [extractTitlesGo, titleNorm, hc, ih]
      · simp [extractTitlesGo, titleNorm, hc, ih]

/-- The image list never exceeds the requested `count`. -/
theorem extractImages_length_le (count : Nat) (elems : List (Option String)) :
    (extractImages count elems).length ≤ count := by
  calc (extractImages count elems).length
      = ((elems.take count).filterMap srcNorm).length := by
        rw [extractImages, extractImagesGo_eq_filterMap]
    _ ≤ (elems.take count).length := List.length_filterMap_le _ _
    _ ≤ count := List.length_take_le _ _

/-- The title list never exceeds the requested `count`. -/
theorem extractTitles_length_le (count : Nat) (elems : List (Option String)) :
    (extractTitles count elems).length ≤ count := by
  calc (extractTitles count elems).length
      = ((elems.take count).filterMap titleNorm).length := by
        rw [extractTitles, extractTitlesGo_eq_filterMap]
    _ ≤ (elems.take count).length := List.length_filterMap_le _ _
    _ ≤ count := List.length_take_le _ _

/-! ## Claims -/

/-- C2 counterexample: the source filter is Python substring containment
(`"http" in src or "//" in src`), not a prefix test, so the source
`"ftp://x"` — which lacks an absolute http/https and a protocol-relative
form — is KEPT by the image loop, not excluded as the claim states. -/
theorem harvest_image_ftp_counterexample :
    extractImages 10 [some "ftp://x"] = ["ftp://x"] := by decide

/-- C2 (amended): the images list is element-wise `filterMap srcNorm` over
the first `count` elements in encounter order — a source is kept iff it is
non-empty and CONTAINS `"http"` or `"//"` anywhere (so `"ftp://x"` is kept);
a kept source starting with `"//"` is rewritten to start with `"https://"`;
at most `count` URLs are returned, and 20 usable sources with count 10 yield
exactly the first 10, in order. -/
theorem harvest_image_extraction :
    (∀ (count : Nat) (elems : List (Option String)),
        extractImages count elems = (elems.take count).filterMap srcNorm)
    ∧ (∀ (count : Nat) (elems : List (Option String)),
        (extractImages count elems).length ≤ count)
    ∧ extractImages 10 [some "//img.example.com/a.jpg"]
        = ["https://img.example.com/a.jpg"]
    ∧ extractImages 10 sampleImgElems
        = ["https://img.example.com/p00.jpg", "http://img.example.com/p01.jpg",
           "https://img.example.com/p02.jpg", "http://img.example.com/p03.jpg",
           "https://img.example.com/p04.jpg", "http://img.example.com/p05.jpg",
           "https://img.example.com/p06.jpg", "http://img.example.com/p07.jpg",
           "https://img.example.com/p08.jpg", "http://img.example.com/p09.jpg"] := by
  refine ⟨?_, extractImages_length_le, by decide, by decide⟩
  intro count elems
  rw [extractImages, extractImagesGo_eq_filterMap]

/-- C9 counterexample: the source skips only elements whose RAW text is
empty and then appends `text.strip()`, so an element whose raw text is
whitespace-only produces the empty string in the titles list, contradicting
the claim that no element of the titles list is the empty string. -/
theorem harvest_title_empty_counterexample :
    extractTitles 5 [some "   "] = [""] := by decide

/-- C9 (amended): the titles list is element-wise `filterMap titleNorm`
over the first `count` elements: a failed read or raw-empty text is
skipped, every kept entry is the element's text with leading and trailing
whitespace trimmed, and at most `count` entries are produced — but an
element whose raw text is non-empty whitespace yields an empty-string
entry. -/
theorem harvest_title_extraction :
    (∀ (count : Nat) (elems : List (Option String)),
        extractTitles count elems = (elems.take count).filterMap titleNorm)
    ∧ (∀ (count : Nat) (elems : List (Option String)),
        (extractTitles count elems).length ≤ count)
    ∧ extractTitles 3 [some "  hello  ", some "", none, some "world"]
        = ["hello"]
    ∧ extractTitles 3 [some "   "] = [""] := by
  refine ⟨?_, extractTitles_length_le, by decide, by decide⟩
  intro count elems
  rw [extractTitles, extractTitlesGo_eq_filterMap]

/-- C3 counterexample: `publish.py::_is_logged_in` installs no handler
around `context.cookies(...)`, so a failing cookie read propagates the
exception to the caller instead of degrading to "not detected". -/
theorem login_detector_raises_counterexample :
    _is_logged_in (Except.error ()) = Except.error () := rfl

/-- C3 (amended): the search-side detector `check_login` never raises —
with every selector wait failing and the page-content fetch failing it
still returns `false` — and the publish-side `_is_logged_in` never raises
when the cookie read succeeds; but a failing cookie read in
`_is_logged_in` propagates to the caller (see the counterexample). -/
theorem login_detector_degradation :
    (∀ page : Page, (∀ s, page.selectorResolves s = false) →
        page.content = Except.error () → check_login page = false)
    ∧ (∀ names : List String,
        _is_logged_in (Except.ok names) = Except.ok (isLoggedInNames names)) := by
  constructor
  · intro page h1 h2
    have hany : loginSelectors.any page.selectorResolves = false := by
      simp [loginSelectors, h1]
    simp [check_login, hany, h2]
  · intro names
    rfl

/-- Witness for the amended C3 at concrete inputs. -/
theorem login_detector_degradation_witness :
    check_login deadPage = false
    ∧ _is_logged_in (Except.ok ["foo"])
        = Except.ok (isLoggedInNames ["foo"]) :=
  ⟨login_detector_degradation.1 deadPage (fun _ => rfl) rfl,
   login_detector_degradation.2 ["foo"]⟩

/-- C5 counterexample: the search-side detector `check_login` never reads
cookies, so a session whose cookie set is `["web_session"]` — which
contains one of the 4 known session cookie names — is still reported as
not logged in when no selector resolves and the page content shows no
indicator, contradicting the claim that any such cookie set makes the
detector return true. -/
theorem cookie_ignored_by_search_detector_counterexample :
    isLoggedInNames ["web_session"] = true
    ∧ check_login noSignalPage = false := by decide

/-- C5 (amended): for the publish-side detector `_is_logged_in`, a cookie
set intersecting the 4 known names yields true and a disjoint cookie set
yields false; the search-side `check_login` ignores cookies entirely and
returns false whenever no selector resolves and no indicator substring
occurs in the page content — even if session cookies are present. -/
theorem cookie_login_detection :
    (∀ names : List String, (∃ n, n ∈ names ∧ n ∈ knownCookieNames) →
        _is_logged_in (Except.ok names) = Except.ok true)
    ∧ (∀ names : List String, (∀ n, n ∈ names → n ∉ knownCookieNames) →
        _is_logged_in (Except.ok names) = Except.ok false)
    ∧ (∀ page : Page, (∀ s, page.selectorResolves s = false) →
        (∀ html, page.content = Except.ok html →
          ∀ ind, ind ∈ loginIndicators → hasSubstr ind html = false) →
        check_login page = false) := by
  refine ⟨?_, ?_, ?_⟩
  · intro names ⟨n, hn, hk⟩
    have : isLoggedInNames names = true := by
      simp [isLoggedInNames, List.any_eq_true]
      exact ⟨n, hn, by simpa using hk⟩
    simp [_is_logged_in, this]
  · intro names h
    have : isLoggedInNames names = false := by
      simp [isLoggedInNames, List.any_eq_false]
      intro n hn
      simpa using h n hn
    simp [_is_logged_in, this]
  · intro page h1 h2
    have hany : loginSelectors.any page.selectorResolves = false := by
      simp [loginSelectors, h1]
    cases hc : page.content with
    | error e => simp [check_login, hany, hc]
    | ok html =>
      have hind :
          loginIndicators.any (fun ind => hasSubstr ind html) = false := by
        simp only [List.any_eq_false]
        intro ind hi
        simp [h2 html hc ind hi]
      simp [check_login, hany, hc, hind]

/-- Witness for the amended C5 at concrete inputs. -/
theorem cookie_login_detection_witness :
    _is_logged_in (Except.ok ["a1"]) = Except.ok true
    ∧ _is_logged_in (Except.ok ["x"]) = Except.ok false
    ∧ check_login noSignalPage = false := by
  refine ⟨cookie_login_detection.1 ["a1"] ⟨"a1", by simp, by decide⟩,
    cookie_login_detection.2.1 ["x"] ?_,
    cookie_login_detection.2.2 noSignalPage (fun _ => rfl) ?_⟩
  · intro n hn
    simp at hn
    subst hn
    decide
  · intro html h ind hind
    have h2 : "" = html := by
      have h1 : (Except.ok "" : Except Unit String) = Except.ok html := h
      injection h1
    subst h2
    fin_cases hind <;> decide

/-- C6: both login-wait loops (publish-side: sleep then poll; search-side:
poll then sleep), at `pollIntervalSeconds = 2` and `maxWaitSeconds = 6`,
poll once per interval; with a detector true only from the 3rd poll onward
they succeed after exactly 3 polls (first component = polls performed,
second = elapsed waiting seconds, third = success), and with a detector
that is never true they time out with elapsed waiting between
`maxWaitSeconds` and `maxWaitSeconds + pollIntervalSeconds`. -/
theorem wait_for_login_polling :
    (∀ d : Nat → Bool, d 1 = false → d 2 = false → d 3 = true →
        waitForLoginPub 2 6 d = (3, 6, true)
        ∧ waitForLoginSearch 2 6 d = (3, 4, true))
    ∧ (∀ d : Nat → Bool, (∀ i, d i = false) →
        waitForLoginPub 2 6 d = (3, 6, false)
        ∧ waitForLoginSearch 2 6 d = (3, 6, false)
        ∧ 6 ≤ (waitForLoginPub 2 6 d).2.1
        ∧ (waitForLoginPub 2 6 d).2.1 ≤ 6 + 2
        ∧ 6 ≤ (waitForLoginSearch 2 6 d).2.1
        ∧ (waitForLoginSearch 2 6 d).2.1 ≤ 6 + 2) := by
  constructor
  · intro d h1 h2 h3
    constructor
    · have e1 : waitForLoginPub 2 6 d
          = if d 1 then (1, 2, true) else waitLoopPub d 2 2 1 2 := rfl
      have e2 : waitLoopPub d 2 2 1 2
          = if d 2 then (2, 4, true) else waitLoopPub d 2 1 2 4 := rfl
      have e3 : waitLoopPub d 2 1 2 4
          = if d 3 then (3, 6, true) else waitLoopPub d 2 0 3 6 := rfl
      simp [e1, e2, e3, h1, h2, h3]
    · have e1 : waitForLoginSearch 2 6 d
          = if d 1 then (1, 0, true) else waitLoopSearch d 2 6 6 1 2 := rfl
      have e2 : waitLoopSearch d 2 6 6 1 2
          = if d 2 then (2, 2, true) else waitLoopSearch d 2 6 5 2 4 := rfl
      have e3 : waitLoopSearch d 2 6 5 2 4
          = if d 3 then (3, 4, true) else waitLoopSearch d 2 6 4 3 6 := rfl
      simp [e1, e2, e3, h1, h2, h3]
  · intro d hd
    have hp : waitForLoginPub 2 6 d = (3, 6, false) := by
      have e : waitForLoginPub 2 6 d = waitLoopPub d 2 3 0 0 := rfl
      rw [e, waitLoopPub_never d 2 hd 3 0 0]
    have hs : waitForLoginSearch 2 6 d = (3, 6, false) := by
      have e1 : waitForLoginSearch 2 6 d
          = if d 1 then (1, 0, true) else waitLoopSearch d 2 6 6 1 2 := rfl
      have e2 : waitLoopSearch d 2 6 6 1 2
          = if d 2 then (2, 2, true) else waitLoopSearch d 2 6 5 2 4 := rfl
      have e3 : waitLoopSearch d 2 6 5 2 4
          = if d 3 then (3, 4, true) else waitLoopSearch d 2 6 4 3 6 := rfl
      have e4 : waitLoopSearch d 2 6 4 3 6 = (3, 6, false) := rfl
      simp [e1, e2, e3, e4, hd]
    exact ⟨hp, hs, by simp [hp], by simp [hp], by simp [hs], by simp [hs]⟩

/-- Witness for C6: a detector true from the 3rd poll onward, and a
never-true detector, at concrete inputs. -/
theorem wait_for_login_polling_witness :
    waitForLoginPub 2 6 detFrom3 = (3, 6, true)
    ∧ waitForLoginSearch 2 6 (fun _ => false) = (3, 6, false) :=
  ⟨(wait_for_login_polling.1 detFrom3 rfl rfl rfl).1,
   ((wait_for_login_polling.2 (fun _ => false) (fun _ => rfl)).2).1⟩

/-- C1: on a logged-in session with the navigation succeeding, the publish
outcome is exactly: success indicator observed → `published` with the
title; submit control located and clicked but indicator not observed →
`ready_to_confirm` with the title; no submit control located →
`ready` with the title — in every case an `Except.ok`, never an error;
and if the session is not logged in and the login wait times out, the
outcome is `not_logged_in`. -/
theorem publish_outcome_mapping :
    (∀ (title content : String) (images tags : Option (List String))
        (env : PubEnv) (names : List String),
        env.cookies = Except.ok names → isLoggedInNames names = true →
        env.gotoPublishOk = true →
        ((env.pubBtnWaitOk = true → 0 < env.pubBtnCount →
            env.indicatorSeen = true →
            (publish_content title content images tags env).1
              = Except.ok ⟨PublishStatus.published, some title⟩)
          ∧ (env.pubBtnWaitOk = true → 0 < env.pubBtnCount →
              env.indicatorSeen = false →
              (publish_content title content images tags env).1
                = Except.ok ⟨PublishStatus.ready_to_confirm, some title⟩)
          ∧ (submitFound env = false →
              (publish_content title content images tags env).1
                = Except.ok ⟨PublishStatus.ready, some title⟩)))
    ∧ (∀ (title content : String) (images tags : Option (List String))
        (env : PubEnv) (names : List String),
        env.cookies = Except.ok names → isLoggedInNames names = false →
        env.gotoLoginOk = true → (∀ i, env.waitDetect i = false) →
        (publish_content title content images tags env).1
          = Except.ok ⟨PublishStatus.not_logged_in, none⟩) := by
  constructor
  · intro title content images tags env names hcook hlog hnav
    have hb : publishBody title content images tags env
        = navAndPublish title content env [Ev.newPage] := by
      simp [publishBody, _is_logged_in, hcook, hlog]
    refine ⟨?_, ?_, ?_⟩
    · intro hw hcnt hi
      simp [publish_content, hb, navAndPublish, hnav, pubStepsResult,
        submitFound, hw, hcnt, hi]
    · intro hw hcnt hi
      simp [publish_content, hb, navAndPublish, hnav, pubStepsResult,
        submitFound, hw, hcnt, hi]
    · intro hsf
      simp [publish_content, hb, navAndPublish, hnav, pubStepsResult, hsf]
  · intro title content images tags env names hcook hlog hgl hd
    have hw : (_wait_for_login env.waitDetect).2.2 = false := by
      have e : _wait_for_login env.waitDetect
          = waitLoopPub env.waitDetect 3 100 0 0 := rfl
      rw [e, waitLoopPub_never env.waitDetect 3 hd 100 0 0]
    simp [publish_content, publishBody, _is_logged_in, hcook, hlog, hgl, hw]

/-- Witness for C1: a fully-cooperative environment produces `published`
with the submitted title. -/
theorem publish_outcome_mapping_witness :
    (publish_content "T" "C" none none envPubAll).1
      = Except.ok ⟨PublishStatus.published, some "T"⟩ :=
  (publish_outcome_mapping.1 "T" "C" none none envPubAll ["a1"]
    rfl (by decide) rfl).1 rfl (by decide) rfl

/-- C4 counterexample: with a session acquired and navigation succeeding
but no login signal ever appearing, `wait_for_login` times out,
`crawl_xiaohongshu` raises (`raise Exception("未完成登录")`), `main` has no
handler, and NO structured result object is printed — the login-wait
timeout escapes as an uncaught exception, contrary to the claim. -/
theorem search_cli_login_timeout_counterexample :
    mainSearch "lamp" 10 envNoLogin = none := by
  have hd : ∀ i : Nat, check_login (envNoLogin.pageAt i) = false := fun _ =>
    (by decide : check_login noSignalPage = false)
  have hw : (wait_for_login envNoLogin.pageAt).2.2 = false := by
    have e : wait_for_login envNoLogin.pageAt
        = waitLoopSearch (fun i => check_login (envNoLogin.pageAt i))
            2 300 301 0 0 := rfl
    rw [e]
    exact waitLoopSearch_never (fun i => check_login (envNoLogin.pageAt i))
      2 300 hd 301 0 0
  have hnav : envNoLogin.navOk = true := rfl
  simp [mainSearch, crawl_xiaohongshu, crawlBody, hnav, hd 0, hw]

/-- C4 (amended): an invocation whose session is (or becomes) usable and
logged in at the initial check prints exactly one structured result object
carrying the keyword, the images, the titles and the image count; but when
the login wait times out the exception escapes `main` uncaught and nothing
is printed. -/
theorem search_cli_output :
    (∀ (k : String) (c : Nat) (env : SearchEnv),
        env.navOk = true → check_login (env.pageAt 0) = true →
        mainSearch k c env
          = some ⟨k, extractImages c env.imgElems,
                  extractTitles c env.titleElems,
                  (extractImages c env.imgElems).length⟩)
    ∧ (∀ (k : String) (c : Nat) (env : SearchEnv),
        env.navOk = true → (∀ i, check_login (env.pageAt i) = false) →
        mainSearch k c env = none) := by
  constructor
  · intro k c env hnav hlog
    simp [mainSearch, crawl_xiaohongshu, crawlBody, hnav, hlog]
  · intro k c env hnav h
    have hw : (wait_for_login env.pageAt).2.2 = false := by
      have e : wait_for_login env.pageAt
          = waitLoopSearch (fun i => check_login (env.pageAt i))
              2 300 301 0 0 := rfl
      rw [e]
      exact waitLoopSearch_never _ 2 300 (fun i => h i) 301 0 0
    simp [mainSearch, crawl_xiaohongshu, crawlBody, hnav, h 0, hw]

/-- Witness for the amended C4: a logged-in harvest prints its one result;
a never-logged-in run prints nothing. -/
theorem search_cli_output_witness :
    mainSearch "x" 5 envHarvestOk
      = some ⟨"x", extractImages 5 envHarvestOk.imgElems,
              extractTitles 5 envHarvestOk.titleElems,
              (extractImages 5 envHarvestOk.imgElems).length⟩
    ∧ mainSearch "k2" 3 envNoLogin = none :=
  ⟨search_cli_output.1 "x" 5 envHarvestOk rfl (by decide),
   search_cli_output.2 "k2" 3 envNoLogin rfl
     (fun _ : Nat => (by decide : check_login noSignalPage = false))⟩

/-- C7: every structured harvest result the search CLI emits satisfies
`count = images.length`, for every keyword, count argument and
environment; and the titles length is independent — it can differ from the
images length, as a concrete completed harvest shows. -/
theorem harvest_count_invariant :
    (∀ (k : String) (c : Nat) (env : SearchEnv) (out : HarvestOutput),
        mainSearch k c env = some out → out.count = out.images.length)
    ∧ (∃ out : HarvestOutput, mainSearch "x" 5 envHarvestOk = some out
        ∧ out.titles.length ≠ out.images.length) := by
  constructor
  · intro k c env out h
    simp only [mainSearch] at h
    split at h
    · exact absurd h (by simp)
    · simp only [Option.some.injEq] at h
      subst h
      rfl
  · exact ⟨⟨"x", ["http://a.jpg"], [], 1⟩, by decide, by decide⟩

/-- Witness for C7 at a concrete completed harvest. -/
theorem harvest_count_invariant_witness :
    (HarvestOutput.mk "x" ["http://a.jpg"] [] 1).count
      = (HarvestOutput.mk "x" ["http://a.jpg"] [] 1).images.length :=
  harvest_count_invariant.1 "x" 5 envHarvestOk
    (HarvestOutput.mk "x" ["http://a.jpg"] [] 1) (by decide)

/-- C8: both workflows run their body under `try/finally` with the context
close in the `finally`, so the release event is in the interaction trace of
every run — normal completion, degraded partial outcome, or propagated
failure alike. -/
theorem session_released_on_all_paths :
    (∀ (title content : String) (images tags : Option (List String))
        (env : PubEnv),
        Ev.closeContext ∈ (publish_content title content images tags env).2)
    ∧ (∀ (k : String) (c : Nat) (env : SearchEnv),
        Ev.closeBrowser ∈ (crawl_xiaohongshu k c env).2) := by
  constructor
  · intro title content images tags env
    simp [publish_content]
  · intro k c env
    simp [crawl_xiaohongshu]

/-- C10: `publish_content` binds `images` and `tags` but never reads them,
so two runs differing only in `--images`/`--tags` (both at the
`publish_content` level and at the CLI level, where the arguments are
comma-split and passed down) return the same outcome and perform the very
same driver interactions. -/
theorem publish_unaffected_by_images_tags :
    (∀ (title content : String) (i1 t1 i2 t2 : Option (List String))
        (env : PubEnv),
        publish_content title content i1 t1 env
          = publish_content title content i2 t2 env)
    ∧ (∀ (title content : String) (a1 b1 a2 b2 : Option String)
        (env : PubEnv),
        mainPublishArgs title content a1 b1 env
          = mainPublishArgs title content a2 b2 env) :=
  ⟨fun _ _ _ _ _ _ _ => rfl, fun _ _ _ _ _ _ _ => rfl⟩

end OpenCowork
